import Mathlib

/-!
Verification of the provider configuration resolution core of
`terraform-provider-sbercloud` (`sbercloud/provider.go`).

The file embeds, as Lean definitions:
* the provider configuration schema declared in `Provider()` (field metadata:
  type, optional/required, sensitivity, environment variables, hardcoded
  default, `RequiredWith` constraints), as plain data;
* the external schema engine's per-field resolution chain (modelled from the
  spec, since the schema/validation engine is an external collaborator);
* `configureProvider`, which derives the effective project name, assembles the
  `huaweicloud.Config` value and hands it to the external validation call;
* the `ConfigureFunc` wrapper that substitutes the `"0.11+compatible"`
  placeholder for a missing terraform version string.

The external validation call (`Config.LoadAndValidate`) can fail for reasons
outside this core (network, credentials); it is represented throughout as an
abstract parameter `loadAndValidate : Config → Option String` (`some err` =
rejection with error `err`, `none` = success), and additionally modelled from
the spec for the missing-region scenario.
-/

namespace Sbercloud

/-- The assembled client configuration record (`huaweicloud.Config`), with the
fields `configureProvider` populates. -/
structure Config where
  AccessKey : String
  SecretKey : String
  DomainName : String
  IdentityEndpoint : String
  Insecure : Bool
  Password : String
  Region : String
  TenantName : String
  Username : String
  TerraformVersion : String
  Cloud : String
  RegionClient : Bool
deriving DecidableEq, Repr

/-- The resolved provider inputs, i.e. what `d.Get(key)` returns for each
schema field after the external schema engine has applied the per-field
resolution chain. -/
structure ResourceData where
  access_key : String
  secret_key : String
  auth_url : String
  region : String
  user_name : String
  project_name : String
  password : String
  account_name : String
  insecure : Bool
deriving DecidableEq, Repr

/-- `d.GetOk` for a string field, as in the schema helper library: the resolved
value together with whether it is set to a non-zero (non-empty) value. -/
def getOkString (v : String) : String × Bool :=
  (v, !(v == ""))

/-- The configuration value assembled by `configureProvider` before the
external validation call: the effective project name is the resolved
`project_name` when `GetOk` reports it set and non-empty, otherwise the
resolved `region`; every other field is copied, with the fixed cloud partition
`"hc.sbercloud.ru"` and the per-region client flag set. -/
def assembleConfig (d : ResourceData) (terraformVersion : String) : Config :=
  let vok := getOkString d.project_name
  let project_name := if vok.2 && !(vok.1 == "") then vok.1 else d.region
  { AccessKey := d.access_key
    SecretKey := d.secret_key
    DomainName := d.account_name
    IdentityEndpoint := d.auth_url
    Insecure := d.insecure
    Password := d.password
    Region := d.region
    TenantName := project_name
    Username := d.user_name
    TerraformVersion := terraformVersion
    Cloud := "hc.sbercloud.ru"
    RegionClient := true }

/-- `configureProvider(d, terraformVersion)`: assemble the configuration, call
the external validation (`config.LoadAndValidate()`); on rejection return the
error and no configuration, otherwise return the validated configuration. -/
def configureProvider (loadAndValidate : Config → Option String)
    (d : ResourceData) (terraformVersion : String) : Except String Config :=
  match loadAndValidate (assembleConfig d terraformVersion) with
  | some err => Except.error err
  | none => Except.ok (assembleConfig d terraformVersion)

/-- The `ConfigureFunc` closure installed by `Provider()`: when the terraform
version string received from the host is empty it substitutes the
`"0.11+compatible"` placeholder, then delegates to `configureProvider`. -/
def providerConfigureFunc (loadAndValidate : Config → Option String)
    (d : ResourceData) (providerTerraformVersion : String) : Except String Config :=
  let terraformVersion :=
    if providerTerraformVersion == "" then "0.11+compatible"
    else providerTerraformVersion
  configureProvider loadAndValidate d terraformVersion

/-! ## The provider schema as data -/

/-- The value type of a schema field. -/
inductive SchemaType
  | string
  | bool
deriving DecidableEq, Repr

/-- The hardcoded default handed to the environment-fallback default function
(`nil`, a string, or a boolean). -/
inductive DefaultVal
  | nil
  | ofString (s : String)
  | ofBool (b : Bool)
deriving DecidableEq, Repr

/-- Metadata of one provider schema field, as declared in `Provider()`. -/
structure SchemaField where
  typ : SchemaType
  required : Bool
  optional : Bool
  sensitive : Bool
  envVars : List String
  defaultValue : DefaultVal
  requiredWith : List String
  inputDefault : Option String
deriving DecidableEq, Repr

/-- The provider configuration schema of `Provider()`, field by field. -/
def providerSchema : List (String × SchemaField) :=
  [("access_key",
    { typ := .string, required := false, optional := true, sensitive := false,
      envVars := ["SBC_ACCESS_KEY"], defaultValue := .nil,
      requiredWith := ["secret_key"], inputDefault := none }),
   ("secret_key",
    { typ := .string, required := false, optional := true, sensitive := false,
      envVars := ["SBC_SECRET_KEY"], defaultValue := .nil,
      requiredWith := ["access_key"], inputDefault := none }),
   ("auth_url",
    { typ := .string, required := false, optional := true, sensitive := false,
      envVars := ["SBC_AUTH_URL"],
      defaultValue := .ofString "https://iam.ru-moscow-1.hc.sbercloud.ru/v3",
      requiredWith := [], inputDefault := none }),
   ("region",
    { typ := .string, required := true, optional := false, sensitive := false,
      envVars := ["SBC_REGION_NAME"], defaultValue := .nil,
      requiredWith := [], inputDefault := some "ru-moscow-1" }),
   ("user_name",
    { typ := .string, required := false, optional := true, sensitive := false,
      envVars := ["SBC_USERNAME"], defaultValue := .ofString "",
      requiredWith := ["password", "account_name"], inputDefault := none }),
   ("project_name",
    { typ := .string, required := false, optional := true, sensitive := false,
      envVars := ["SBC_PROJECT_NAME"], defaultValue := .ofString "",
      requiredWith := [], inputDefault := none }),
   ("password",
    { typ := .string, required := false, optional := true, sensitive := true,
      envVars := ["SBC_PASSWORD"], defaultValue := .ofString "",
      requiredWith := ["user_name", "account_name"], inputDefault := none }),
   ("account_name",
    { typ := .string, required := false, optional := true, sensitive := false,
      envVars := ["SBC_ACCOUNT_NAME"], defaultValue := .ofString "",
      requiredWith := ["password", "user_name"], inputDefault := none }),
   ("insecure",
    { typ := .bool, required := false, optional := true, sensitive := false,
      envVars := ["SBC_INSECURE"], defaultValue := .ofBool false,
      requiredWith := [], inputDefault := none })]

/-- Look up a field's metadata in the provider schema. -/
def schemaField (name : String) : Option SchemaField :=
  (providerSchema.find? (fun p => p.1 == name)).map Prod.snd

/-! ## Schema resolution chain (external schema engine) -/

/-- The raw provider block: each field either explicitly set (`some`) or
absent (`none`). -/
structure RawConfig where
  access_key : Option String
  secret_key : Option String
  auth_url : Option String
  region : Option String
  user_name : Option String
  project_name : Option String
  password : Option String
  account_name : Option String
  insecure : Option Bool
deriving DecidableEq, Repr

/-- The process environment, with `os.Getenv` semantics: the empty string for
an unset variable. -/
abbrev Env := String → String

/-- Modelled from the spec: the environment-style fallback used by the schema
default functions (the external schema engine is out of scope of src): the
first environment variable with a non-empty value wins, otherwise the
hardcoded default applies (the zero value, an empty string, when the default
is nil). -/
def envFallback (env : Env) (vars : List String) (dflt : Option String) : String :=
  match vars with
  | [] => dflt.getD ""
  | v :: rest => if env v == "" then envFallback env rest dflt else env v

/-- Modelled from the spec: the per-field resolution chain of the external
schema engine, missing from src — explicit value, then environment lookup,
then hardcoded default; an explicitly set empty string behaves as unset and
falls through to the fallback chain. -/
def resolveStringField (env : Env) (explicit : Option String)
    (vars : List String) (dflt : Option String) : String :=
  match explicit with
  | some v => if v == "" then envFallback env vars dflt else v
  | none => envFallback env vars dflt

/-- Modelled from the spec: resolution of the boolean `insecure` field — the
explicit value when set, otherwise the environment variable interpreted as a
boolean when non-empty, otherwise the hardcoded default `false`. -/
def resolveBoolField (env : Env) (explicit : Option Bool)
    (var : String) (dflt : Bool) : Bool :=
  match explicit with
  | some b => b
  | none => if env var == "" then dflt else env var == "true"

/-- Modelled from the spec: the resolved values of all nine provider fields,
applying the resolution chain with the environment variables and hardcoded
defaults declared in the provider schema. -/
def resolveRawConfig (env : Env) (raw : RawConfig) : ResourceData :=
  { access_key := resolveStringField env raw.access_key ["SBC_ACCESS_KEY"] none
    secret_key := resolveStringField env raw.secret_key ["SBC_SECRET_KEY"] none
    auth_url := resolveStringField env raw.auth_url ["SBC_AUTH_URL"]
      (some "https://iam.ru-moscow-1.hc.sbercloud.ru/v3")
    region := resolveStringField env raw.region ["SBC_REGION_NAME"] none
    user_name := resolveStringField env raw.user_name ["SBC_USERNAME"] (some "")
    project_name := resolveStringField env raw.project_name ["SBC_PROJECT_NAME"] (some "")
    password := resolveStringField env raw.password ["SBC_PASSWORD"] (some "")
    account_name := resolveStringField env raw.account_name ["SBC_ACCOUNT_NAME"] (some "")
    insecure := resolveBoolField env raw.insecure "SBC_INSECURE" false }

/-- Modelled from the spec: the missing-region rejection of the external
validation/bootstrap call (`huaweicloud.Config.LoadAndValidate`, absent from
src): a configuration whose region is missing is rejected; its other failure
modes (bad credentials, unreachable endpoint) are I/O-dependent and are
represented by the abstract validator parameter instead. -/
def loadAndValidateSpec (c : Config) : Option String :=
  if c.Region == "" then some "missing region" else none

/-- A validator that accepts every configuration (an external validation call
that succeeds). -/
def acceptAll : Config → Option String := fun _ => none

/-! ## Concrete sample inputs -/

/-- The environment with no variable set. -/
def emptyEnv : Env := fun _ => ""

/-- The raw provider block with every field absent. -/
def emptyRaw : RawConfig :=
  { access_key := none, secret_key := none, auth_url := none, region := none,
    user_name := none, project_name := none, password := none,
    account_name := none, insecure := none }

/-- Resolved inputs of the spec scenario `{region: "ru-moscow-1",
project_name: ""}`. -/
def sampleMoscowNoProject : ResourceData :=
  { access_key := "", secret_key := "", auth_url := "", region := "ru-moscow-1",
    user_name := "", project_name := "", password := "", account_name := "",
    insecure := false }

/-- Resolved inputs of the spec scenario `{region: "ru-moscow-1",
project_name: "proj-a"}`. -/
def sampleMoscowProjA : ResourceData :=
  { sampleMoscowNoProject with project_name := "proj-a" }

/-- Resolved inputs violating both mutual-presence invariants: `access_key`
without `secret_key`, and `user_name` without `password`/`account_name`. -/
def sampleViolating : ResourceData :=
  { sampleMoscowNoProject with access_key := "AK0", user_name := "user1" }

/-! ## Mutual-presence invariants (stated for reference in the claims) -/

/-- The `access_key`/`secret_key` mutual-presence invariant on resolved
inputs: either both are present (non-empty) or neither is. -/
def akSkInvariant (d : ResourceData) : Prop :=
  (d.access_key = "") ↔ (d.secret_key = "")

instance (d : ResourceData) : Decidable (akSkInvariant d) := by
  unfold akSkInvariant
  infer_instance

/-- The `user_name`/`password`/`account_name` mutual-presence invariant on
resolved inputs: the three are all present (non-empty) or all absent. -/
def userTripleInvariant (d : ResourceData) : Prop :=
  ((d.user_name = "") ↔ (d.password = "")) ∧ ((d.user_name = "") ↔ (d.account_name = ""))

instance (d : ResourceData) : Decidable (userTripleInvariant d) := by
  unfold userTripleInvariant
  infer_instance

/-! ## Helper lemmas -/

/-- `configureProvider` returns a configuration exactly when the external
validation accepts the assembled one, and then returns that very value. -/
theorem configureProvider_ok_iff (v : Config → Option String) (d : ResourceData)
    (tfv : String) (c : Config) :
    configureProvider v d tfv = Except.ok c ↔
      v (assembleConfig d tfv) = none ∧ c = assembleConfig d tfv := by
  unfold configureProvider
  cases hval : v (assembleConfig d tfv) <;> simp [eq_comm]

/-- `configureProvider` returns an error exactly when the external validation
rejects the assembled configuration with that error. -/
theorem configureProvider_error_iff (v : Config → Option String) (d : ResourceData)
    (tfv : String) (e : String) :
    configureProvider v d tfv = Except.error e ↔
      v (assembleConfig d tfv) = some e := by
  unfold configureProvider
  cases hval : v (assembleConfig d tfv) <;> simp

/-- The effective tenant name of the assembled configuration: the resolved
project name when non-empty, the resolved region otherwise. -/
theorem assembleConfig_TenantName (d : ResourceData) (tfv : String) :
    (assembleConfig d tfv).TenantName =
      if d.project_name = "" then d.region else d.project_name := by
  by_cases hp : d.project_name = "" <;>
    simp [assembleConfig, getOkString, hp]

/-- A configuration is returned iff the external validation accepts the
assembled one. -/
theorem configureProvider_exists_ok_iff (v : Config → Option String)
    (d : ResourceData) (tfv : String) :
    (∃ c, configureProvider v d tfv = Except.ok c) ↔
      v (assembleConfig d tfv) = none := by
  constructor
  · rintro ⟨c, hc⟩
    exact ((configureProvider_ok_iff v d tfv c).mp hc).1
  · intro h
    exact ⟨assembleConfig d tfv, (configureProvider_ok_iff v d tfv _).mpr ⟨h, rfl⟩⟩

/-- The `ConfigureFunc` wrapper is `configureProvider` at the
placeholder-substituted terraform version. -/
theorem providerConfigureFunc_eq (v : Config → Option String)
    (d : ResourceData) (tfv : String) :
    providerConfigureFunc v d tfv
      = configureProvider v d (if tfv = "" then "0.11+compatible" else tfv) := by
  unfold providerConfigureFunc
  by_cases h : tfv = "" <;> simp [h]

/-! ## Claims -/

/-- Claim C1: whenever the resolved `project_name` is the empty string,
`configureProvider` sets the returned configuration's `TenantName` to the
resolved `region`; in particular the scenario inputs `{region: "ru-moscow-1",
project_name: ""}` yield `TenantName = "ru-moscow-1"`, and both an unset
`project_name` and one explicitly set to `""` resolve to the empty string when
the environment variable is absent. -/
theorem tenantName_falls_back_to_region :
    (∀ (v : Config → Option String) (d : ResourceData) (tfv : String) (c : Config),
      d.project_name = "" → configureProvider v d tfv = Except.ok c →
      c.TenantName = d.region)
    ∧ ((configureProvider acceptAll sampleMoscowNoProject "1.0").toOption.map
        Config.TenantName = some "ru-moscow-1")
    ∧ (∀ (env : Env) (raw : RawConfig),
        (raw.project_name = none ∨ raw.project_name = some "") →
        env "SBC_PROJECT_NAME" = "" →
        (resolveRawConfig env raw).project_name = "") := by
  refine ⟨?_, rfl, ?_⟩
  · intro v d tfv c hp hok
    rw [configureProvider_ok_iff] at hok
    rw [hok.2, assembleConfig_TenantName, if_pos hp]
  · intro env raw hpn henv
    rcases hpn with h | h <;>
      simp [resolveRawConfig, resolveStringField, envFallback, h, henv]

/-- Witness for C1 at the scenario input and at the all-absent raw block. -/
theorem tenantName_falls_back_to_region_witness :
    sampleMoscowNoProject.project_name = ""
    ∧ (assembleConfig sampleMoscowNoProject "1.0").TenantName
        = sampleMoscowNoProject.region
    ∧ (resolveRawConfig emptyEnv emptyRaw).project_name = "" :=
  ⟨rfl,
   tenantName_falls_back_to_region.1 acceptAll sampleMoscowNoProject "1.0"
     (assembleConfig sampleMoscowNoProject "1.0") rfl rfl,
   tenantName_falls_back_to_region.2.2 emptyEnv emptyRaw (Or.inl rfl) rfl⟩

/-- Claim C2: whenever the resolved `project_name` is non-empty,
`configureProvider` sets the returned configuration's `TenantName` to exactly
that string; in particular the scenario inputs `{region: "ru-moscow-1",
project_name: "proj-a"}` yield `TenantName = "proj-a"`. -/
theorem tenantName_keeps_nonempty_project :
    (∀ (v : Config → Option String) (d : ResourceData) (tfv : String) (c : Config),
      d.project_name ≠ "" → configureProvider v d tfv = Except.ok c →
      c.TenantName = d.project_name)
    ∧ ((configureProvider acceptAll sampleMoscowProjA "1.0").toOption.map
        Config.TenantName = some "proj-a") := by
  refine ⟨?_, rfl⟩
  intro v d tfv c hp hok
  rw [configureProvider_ok_iff] at hok
  rw [hok.2, assembleConfig_TenantName, if_neg hp]

/-- Witness for C2 at the scenario input. -/
theorem tenantName_keeps_nonempty_project_witness :
    sampleMoscowProjA.project_name ≠ ""
    ∧ (assembleConfig sampleMoscowProjA "1.0").TenantName
        = sampleMoscowProjA.project_name :=
  ⟨by decide,
   tenantName_keeps_nonempty_project.1 acceptAll sampleMoscowProjA "1.0"
     (assembleConfig sampleMoscowProjA "1.0") (by decide) rfl⟩

/-- Claim C3: with `auth_url` explicitly set to `""` (or unset) and the
environment variable absent, the resolution chain yields the fixed default
`"https://iam.ru-moscow-1.hc.sbercloud.ru/v3"`, and `configureProvider`
stores the resolved `auth_url` as the configuration's `IdentityEndpoint`. -/
theorem auth_url_defaults_to_regional_endpoint :
    ((resolveRawConfig emptyEnv
        { emptyRaw with auth_url := some "", region := some "r1" }).auth_url
      = "https://iam.ru-moscow-1.hc.sbercloud.ru/v3")
    ∧ (∀ (env : Env) (raw : RawConfig),
        raw.auth_url = none → env "SBC_AUTH_URL" = "" →
        (resolveRawConfig env raw).auth_url
          = "https://iam.ru-moscow-1.hc.sbercloud.ru/v3")
    ∧ (∀ (v : Config → Option String) (d : ResourceData) (tfv : String) (c : Config),
        configureProvider v d tfv = Except.ok c →
        c.IdentityEndpoint = d.auth_url) := by
  refine ⟨rfl, ?_, ?_⟩
  · intro env raw hau henv
    simp [resolveRawConfig, resolveStringField, envFallback, hau, henv]
  · intro v d tfv c hok
    rw [configureProvider_ok_iff] at hok
    rw [hok.2]
    rfl

/-- Witness for C3 at the all-absent raw block and the scenario input. -/
theorem auth_url_defaults_to_regional_endpoint_witness :
    (resolveRawConfig emptyEnv emptyRaw).auth_url
      = "https://iam.ru-moscow-1.hc.sbercloud.ru/v3"
    ∧ (assembleConfig sampleMoscowNoProject "1.0").IdentityEndpoint
      = sampleMoscowNoProject.auth_url :=
  ⟨auth_url_defaults_to_regional_endpoint.2.1 emptyEnv emptyRaw rfl rfl,
   auth_url_defaults_to_regional_endpoint.2.2 acceptAll sampleMoscowNoProject "1.0"
     (assembleConfig sampleMoscowNoProject "1.0") rfl⟩

/-- Claim C4: the `region` schema field carries no hardcoded default (its
default-function fallback is nil); with every field absent and no environment
variable the resolved region is empty, `configureProvider` reaches the
external validation call (it succeeds under an accepting validator, so the
resolver itself performs no region check), and the spec-modelled validation
call rejects the configuration with the missing-region error. -/
theorem region_has_no_default_and_fails_in_validation :
    ((schemaField "region").map SchemaField.defaultValue = some DefaultVal.nil)
    ∧ ((resolveRawConfig emptyEnv emptyRaw).region = "")
    ∧ (configureProvider loadAndValidateSpec (resolveRawConfig emptyEnv emptyRaw) "1.0"
        = Except.error "missing region")
    ∧ (∀ (tfv : String),
        configureProvider acceptAll (resolveRawConfig emptyEnv emptyRaw) tfv
          = Except.ok (assembleConfig (resolveRawConfig emptyEnv emptyRaw) tfv)) :=
  ⟨rfl, rfl, rfl, fun _ => rfl⟩

/-- Claim C5: `configureProvider` either returns the fully assembled
configuration, which the external validation accepted, or no configuration
together with the validation error; the outcome is a function of the single
validation verdict on the assembled configuration (no retry, no partial
state). -/
theorem configure_all_or_nothing (v : Config → Option String) (d : ResourceData)
    (tfv : String) :
    ((∃ c, configureProvider v d tfv = Except.ok c
        ∧ c = assembleConfig d tfv ∧ v c = none)
      ∨ (∃ e, configureProvider v d tfv = Except.error e
        ∧ v (assembleConfig d tfv) = some e))
    ∧ (∀ (w : Config → Option String),
        w (assembleConfig d tfv) = v (assembleConfig d tfv) →
        configureProvider w d tfv = configureProvider v d tfv) := by
  constructor
  · by_cases h : v (assembleConfig d tfv) = none
    · exact Or.inl ⟨assembleConfig d tfv,
        (configureProvider_ok_iff v d tfv _).mpr ⟨h, rfl⟩, rfl, h⟩
    · obtain ⟨e, he⟩ := Option.ne_none_iff_exists'.mp h
      exact Or.inr ⟨e, (configureProvider_error_iff v d tfv e).mpr he, he⟩
  · intro w hw
    unfold configureProvider
    rw [hw]

/-- Witness for C5: two validators with the same verdict on the assembled
configuration produce the same outcome at the scenario input. -/
theorem configure_all_or_nothing_witness :
    configureProvider loadAndValidateSpec sampleMoscowNoProject "1.0"
      = configureProvider acceptAll sampleMoscowNoProject "1.0" :=
  (configure_all_or_nothing acceptAll sampleMoscowNoProject "1.0").2
    loadAndValidateSpec rfl

/-- Claim C6: every configuration assembled by `configureProvider` — the value
handed to the external validation call, and the value returned on success —
has its derived fields populated: `DomainName` is the resolved `account_name`,
`TenantName` the effective project name, `Cloud` the fixed partition
`"hc.sbercloud.ru"`, and `RegionClient` is `true`. -/
theorem derived_fields_populated (d : ResourceData) (tfv : String) :
    ((assembleConfig d tfv).DomainName = d.account_name
      ∧ (assembleConfig d tfv).TenantName
          = (if d.project_name = "" then d.region else d.project_name)
      ∧ (assembleConfig d tfv).Cloud = "hc.sbercloud.ru"
      ∧ (assembleConfig d tfv).RegionClient = true)
    ∧ (∀ (v : Config → Option String) (c : Config),
        configureProvider v d tfv = Except.ok c → c = assembleConfig d tfv) := by
  refine ⟨⟨rfl, assembleConfig_TenantName d tfv, rfl, rfl⟩, ?_⟩
  intro v c hok
  exact ((configureProvider_ok_iff v d tfv c).mp hok).2

/-- Witness for C6 at the scenario input. -/
theorem derived_fields_populated_witness :
    (assembleConfig sampleMoscowProjA "0.13").Cloud = "hc.sbercloud.ru"
    ∧ assembleConfig sampleMoscowProjA "0.13" = assembleConfig sampleMoscowProjA "0.13" :=
  ⟨(derived_fields_populated sampleMoscowProjA "0.13").1.2.2.1,
   (derived_fields_populated sampleMoscowProjA "0.13").2 acceptAll
     (assembleConfig sampleMoscowProjA "0.13") rfl⟩

/-- Claim C7: when the host-supplied version string is empty the wrapper
stores the placeholder `"0.11+compatible"` in the configuration's
`TerraformVersion`; a non-empty version string is stored unchanged. -/
theorem terraformVersion_placeholder :
    (∀ (v : Config → Option String) (d : ResourceData) (c : Config),
      providerConfigureFunc v d "" = Except.ok c →
      c.TerraformVersion = "0.11+compatible")
    ∧ (∀ (v : Config → Option String) (d : ResourceData) (tfv : String) (c : Config),
      tfv ≠ "" → providerConfigureFunc v d tfv = Except.ok c →
      c.TerraformVersion = tfv) := by
  constructor
  · intro v d c hok
    rw [providerConfigureFunc_eq, if_pos rfl, configureProvider_ok_iff] at hok
    rw [hok.2]
    rfl
  · intro v d tfv c htfv hok
    rw [providerConfigureFunc_eq, if_neg htfv, configureProvider_ok_iff] at hok
    rw [hok.2]
    rfl

/-- Witness for C7 at an empty and a non-empty version string. -/
theorem terraformVersion_placeholder_witness :
    (assembleConfig sampleMoscowNoProject "0.11+compatible").TerraformVersion
        = "0.11+compatible"
    ∧ ("0.13" : String) ≠ ""
    ∧ (assembleConfig sampleMoscowNoProject "0.13").TerraformVersion = "0.13" :=
  ⟨terraformVersion_placeholder.1 acceptAll sampleMoscowNoProject
     (assembleConfig sampleMoscowNoProject "0.11+compatible") rfl,
   by decide,
   terraformVersion_placeholder.2 acceptAll sampleMoscowNoProject "0.13"
     (assembleConfig sampleMoscowNoProject "0.13") (by decide) rfl⟩

/-- Claim C8: the mutual-presence invariants exist only as `RequiredWith`
schema metadata; `configureProvider` performs no procedural check of them —
every input, including invariant-violating ones, assembles the configuration
and reaches the external validation call, and whether the call is reached and
succeeds depends only on the validator's verdict. -/
theorem no_procedural_invariant_check :
    ((schemaField "access_key").map SchemaField.requiredWith = some ["secret_key"]
      ∧ (schemaField "secret_key").map SchemaField.requiredWith = some ["access_key"]
      ∧ (schemaField "user_name").map SchemaField.requiredWith
          = some ["password", "account_name"]
      ∧ (schemaField "password").map SchemaField.requiredWith
          = some ["user_name", "account_name"]
      ∧ (schemaField "account_name").map SchemaField.requiredWith
          = some ["password", "user_name"])
    ∧ (∀ (d : ResourceData) (tfv : String),
        configureProvider acceptAll d tfv = Except.ok (assembleConfig d tfv))
    ∧ (∀ (d : ResourceData) (tfv : String),
        ¬ akSkInvariant d ∨ ¬ userTripleInvariant d →
        configureProvider acceptAll d tfv = Except.ok (assembleConfig d tfv))
    ∧ (∀ (v : Config → Option String) (tfv : String) (d₁ d₂ : ResourceData),
        v (assembleConfig d₁ tfv) = v (assembleConfig d₂ tfv) →
        ((∃ c, configureProvider v d₁ tfv = Except.ok c)
          ↔ (∃ c, configureProvider v d₂ tfv = Except.ok c))) := by
  refine ⟨⟨rfl, rfl, rfl, rfl, rfl⟩, fun d tfv => rfl, fun d tfv _ => rfl, ?_⟩
  intro v tfv d₁ d₂ hv
  rw [configureProvider_exists_ok_iff, configureProvider_exists_ok_iff, hv]

/-- Witness for C8 at an input violating both invariants. -/
theorem no_procedural_invariant_check_witness :
    (¬ akSkInvariant sampleViolating ∨ ¬ userTripleInvariant sampleViolating)
    ∧ configureProvider acceptAll sampleViolating "1.0"
        = Except.ok (assembleConfig sampleViolating "1.0")
    ∧ ((∃ c, configureProvider acceptAll sampleViolating "1.0" = Except.ok c)
        ↔ (∃ c, configureProvider acceptAll sampleMoscowNoProject "1.0" = Except.ok c)) :=
  ⟨Or.inl (by decide),
   no_procedural_invariant_check.2.2.1 sampleViolating "1.0" (Or.inl (by decide)),
   no_procedural_invariant_check.2.2.2 acceptAll "1.0" sampleViolating
     sampleMoscowNoProject rfl⟩

/-- Claim C9: `configureProvider` is deterministic — equal resolved inputs and
version strings assemble field-for-field equal configurations, validators
agreeing on the assembled configuration produce identical outcomes, and the
external validation verdict is the only source of failure. -/
theorem configure_deterministic :
    (∀ (d₁ d₂ : ResourceData) (tfv₁ tfv₂ : String),
      d₁.access_key = d₂.access_key → d₁.secret_key = d₂.secret_key →
      d₁.account_name = d₂.account_name → d₁.auth_url = d₂.auth_url →
      d₁.insecure = d₂.insecure → d₁.password = d₂.password →
      d₁.region = d₂.region → d₁.project_name = d₂.project_name →
      d₁.user_name = d₂.user_name → tfv₁ = tfv₂ →
      assembleConfig d₁ tfv₁ = assembleConfig d₂ tfv₂)
    ∧ (∀ (v₁ v₂ : Config → Option String) (d : ResourceData) (tfv : String),
        v₁ (assembleConfig d tfv) = v₂ (assembleConfig d tfv) →
        configureProvider v₁ d tfv = configureProvider v₂ d tfv)
    ∧ (∀ (v : Config → Option String) (d : ResourceData) (tfv : String),
        (∃ e, configureProvider v d tfv = Except.error e)
          ↔ v (assembleConfig d tfv) ≠ none) := by
  refine ⟨?_, ?_, ?_⟩
  · intro d₁ d₂ tfv₁ tfv₂ h1 h2 h3 h4 h5 h6 h7 h8 h9 h10
    cases d₁
    cases d₂
    simp_all
  · intro v₁ v₂ d tfv h
    unfold configureProvider
    rw [h]
  · intro v d tfv
    constructor
    · rintro ⟨e, he⟩
      rw [configureProvider_error_iff] at he
      simp [he]
    · intro h
      cases hval : v (assembleConfig d tfv) with
      | none => exact absurd hval h
      | some e => exact ⟨e, (configureProvider_error_iff v d tfv e).mpr hval⟩

/-- Witness for C9 at concrete inputs and validators. -/
theorem configure_deterministic_witness :
    assembleConfig sampleMoscowProjA "1.0" = assembleConfig sampleMoscowProjA "1.0"
    ∧ configureProvider acceptAll sampleMoscowNoProject "1.0"
        = configureProvider loadAndValidateSpec sampleMoscowNoProject "1.0"
    ∧ (∃ e, configureProvider loadAndValidateSpec (resolveRawConfig emptyEnv emptyRaw) "1.0"
        = Except.error e) :=
  ⟨configure_deterministic.1 sampleMoscowProjA sampleMoscowProjA "1.0" "1.0"
     rfl rfl rfl rfl rfl rfl rfl rfl rfl rfl,
   configure_deterministic.2.1 acceptAll loadAndValidateSpec sampleMoscowNoProject
     "1.0" rfl,
   (configure_deterministic.2.2 loadAndValidateSpec
     (resolveRawConfig emptyEnv emptyRaw) "1.0").mpr (by decide)⟩

/-- Claim C10: every successful configuration carries the resolved inputs
through unmodified — `AccessKey`, `SecretKey`, `Password`, `Username`,
`Region`, `Insecure`, `IdentityEndpoint` equal the corresponding resolved
values, `DomainName` equals the resolved `account_name`, and `TenantName` is
the only field computed from more than one input (`project_name` and
`region`). -/
theorem fields_passed_through_unmodified :
    ∀ (v : Config → Option String) (d : ResourceData) (tfv : String) (c : Config),
      configureProvider v d tfv = Except.ok c →
      c.AccessKey = d.access_key ∧ c.SecretKey = d.secret_key
      ∧ c.Password = d.password ∧ c.Username = d.user_name
      ∧ c.Region = d.region ∧ c.Insecure = d.insecure
      ∧ c.IdentityEndpoint = d.auth_url ∧ c.DomainName = d.account_name
      ∧ c.TenantName = (if d.project_name = "" then d.region else d.project_name)
      ∧ c.TerraformVersion = tfv := by
  intro v d tfv c hok
  obtain ⟨-, rfl⟩ := (configureProvider_ok_iff v d tfv c).mp hok
  exact ⟨rfl, rfl, rfl, rfl, rfl, rfl, rfl, rfl, assembleConfig_TenantName d tfv, rfl⟩

/-- Witness for C10 at the scenario input. -/
theorem fields_passed_through_unmodified_witness :
    (assembleConfig sampleMoscowProjA "1.0").AccessKey
      = sampleMoscowProjA.access_key :=
  (fields_passed_through_unmodified acceptAll sampleMoscowProjA "1.0"
    (assembleConfig sampleMoscowProjA "1.0") rfl).1

end Sbercloud
